import Mathlib

/-!
Verification of the multi-source cricket data aggregator and the fantasy
recommendation heuristics of the Cricket-Coach / Fantasy-Cricket-Assistant
repository.  Python dictionaries are embedded as association lists of
JSON-like values, Python floats as rationals, and the effectful pieces
(network, file cache, `random`) as explicit inputs, so every definition is
executable and every claim can be evaluated on concrete data.
-/

namespace CricketCoach

/-- JSON-like values: the shape of the Python data the repository passes
around (player records, match records, API responses). -/
inductive Json where
  | null
  | bool (b : Bool)
  | num (q : ℚ)
  | str (s : String)
  | arr (elems : List Json)
  | obj (kvs : List (String × Json))

/-- Python truthiness of a value: `None`, `False`, `0`, `""`, `[]` and `{}`
are falsy, everything else is truthy. -/
def Json.truthy : Json → Bool
  | .null => false
  | .bool b => b
  | .num q => q ≠ 0
  | .str s => s ≠ ""
  | .arr elems => ¬ elems.isEmpty
  | .obj kvs => ¬ kvs.isEmpty

/-- The keys of a JSON object, in insertion order (`list(d.keys())`);
empty for non-objects. -/
def Json.objKeys : Json → List String
  | .obj kvs => kvs.map Prod.fst
  | _ => []

/-- A Python dict with string keys, in insertion order. -/
abbrev Dict := List (String × Json)

/-- Dict lookup, `d[k]` / `d.get(k)`: first binding of the key wins
(bindings are unique in dicts built by the modelled code). -/
def pyGet (d : Dict) (k : String) : Option Json :=
  match d with
  | [] => none
  | (k₀, v) :: t => if k₀ = k then some v else pyGet t k

/-- Python `d.get(k, default)`. -/
def pyGetD (d : Dict) (k : String) (v₀ : Json) : Json :=
  (pyGet d k).getD v₀

/-- Python dict assignment `d[k] = v`: overwrite the binding in place when
the key is present (keys are unique in the dicts the modelled code
builds), append it at the end otherwise. -/
def pySet (d : Dict) (k : String) (v : Json) : Dict :=
  match d with
  | [] => [(k, v)]
  | (k₀, v₀) :: t => if k₀ = k then (k, v) :: t else (k₀, v₀) :: pySet t k v

/-- Generic association lookup used for the hand-written Python tables
(`name_corrections`, `canonical_names`, ...). -/
def assocFind {α : Type} (tbl : List (String × α)) (k : String) : Option α :=
  match tbl with
  | [] => none
  | (k₀, v) :: t => if k₀ = k then some v else assocFind t k

/-! ### String helpers mirroring the Python string operations -/

/-- Whether `needle` occurs at the head of `hay`. -/
def lStartsWith : List Char → List Char → Bool
  | [], _ => true
  | _ :: _, [] => false
  | a :: as, b :: bs => a = b && lStartsWith as bs

/-- Python substring test `needle in hay` (the empty needle matches). -/
def containsSub (hay needle : List Char) : Bool :=
  match hay with
  | [] => needle.isEmpty
  | _ :: t => lStartsWith needle hay || containsSub t needle

/-- Python `needle in hay` on strings. -/
def containsSubStr (hay needle : String) : Bool :=
  containsSub hay.toList needle.toList

/-- Python `s.lower()` (ASCII, which covers every name the code handles).
Defined by structural recursion over the character list so that concrete
inputs evaluate inside the kernel. -/
def lowerStr (s : String) : String :=
  (s.toList.map Char.toLower).asString

/-- Tokenizer for Python `s.split()`: maximal runs of non-whitespace. -/
def pySplitWsChars (l : List Char) : List (List Char) :=
  (l.foldr
    (fun c acc =>
      if c.isWhitespace then [] :: acc
      else
        match acc with
        | [] => [[c]]
        | w :: ws => (c :: w) :: ws)
    []).filter (fun w => ¬ w.isEmpty)

/-- Python `s.split()`: split on whitespace runs, dropping empty pieces. -/
def pySplitWs (s : String) : List String :=
  (pySplitWsChars s.toList).map List.asString

/-- Python `" ".join(ws)`. -/
def joinSpace : List String → String
  | [] => ""
  | [w] => w
  | w :: ws => w ++ " " ++ joinSpace ws

/-- Python `word.capitalize()`: first character upper-cased, the rest
lower-cased (ASCII, as in all the names the code handles). -/
def pyCapitalize (w : String) : String :=
  match w.toList with
  | [] => ""
  | c :: t => (c.toUpper :: t.map Char.toLower).asString

/-- Replacement engine for Python `s.replace(needle, repl)` (all
non-overlapping occurrences, left to right).  The fuel is the length of the
string; each step consumes at least one character because every needle the
code replaces is non-empty. -/
def replaceFuel : Nat → List Char → List Char → List Char → List Char
  | 0, l, _, _ => l
  | Nat.succ n, l, needle, repl =>
    match l with
    | [] => []
    | c :: t =>
      if lStartsWith needle l then repl ++ replaceFuel n (l.drop needle.length) needle repl
      else c :: replaceFuel n t needle repl

/-- Python `s.replace(needle, repl)` for non-empty `needle`. -/
def pyReplace (s needle repl : String) : String :=
  (replaceFuel s.length s.toList needle.toList repl.toList).asString

/-! ### `normalize_player_name` (cricket_data_adapter.py, lines 43-132) -/

/-- Literal head of the special query format regex `what are (.*?) - statistics`. -/
def patWhatAre : List Char := "what are ".toList

/-- Literal tail of the special query format regex. -/
def patStatistics : List Char := " - statistics".toList

/-- Lazy group of the regex: the shortest newline-free segment that is
followed by `" - statistics"` (regex `.` does not match a newline). -/
def groupAfter : List Char → Option (List Char)
  | [] => none
  | c :: t =>
    if lStartsWith patStatistics (c :: t) then some []
    else if c = '\n' then none
    else (groupAfter t).map (fun g => c :: g)

/-- Leftmost match of `re.search(r'what are (.*?) - statistics', s)`,
returning the captured group. -/
def searchSpecial : List Char → Option (List Char)
  | [] => none
  | c :: t =>
    if lStartsWith patWhatAre (c :: t) then
      match groupAfter ((c :: t).drop patWhatAre.length) with
      | some g => some g
      | none => searchSpecial t
    else searchSpecial t

/-- The `name_corrections` table of `normalize_player_name`, in source
order. -/
def nameCorrections : List (String × String) :=
  [("virat kolhi", "virat kohli"),
   ("kolhi", "kohli"),
   ("rohit", "rohit sharma"),
   ("dhoni", "ms dhoni"),
   ("ms", "ms dhoni"),
   ("williamson", "kane williamson"),
   ("kane", "kane williamson"),
   ("smith", "steve smith"),
   ("steve", "steve smith"),
   ("babar", "babar azam"),
   ("azam", "babar azam"),
   ("bumrah", "jasprit bumrah"),
   ("jasprit", "jasprit bumrah"),
   ("stokes", "ben stokes"),
   ("ben", "ben stokes"),
   ("rabada", "kagiso rabada"),
   ("kagiso", "kagiso rabada"),
   ("rashid", "rashid khan"),
   ("khan", "rashid khan")]

/-- The `canonical_names` table of `normalize_player_name`. -/
def canonicalNames : List (String × String) :=
  [("virat kohli", "Virat Kohli"),
   ("rohit sharma", "Rohit Sharma"),
   ("ms dhoni", "MS Dhoni"),
   ("kane williamson", "Kane Williamson"),
   ("steve smith", "Steve Smith"),
   ("babar azam", "Babar Azam"),
   ("jasprit bumrah", "Jasprit Bumrah"),
   ("ben stokes", "Ben Stokes"),
   ("kagiso rabada", "Kagiso Rabada"),
   ("rashid khan", "Rashid Khan")]

/-- Partial-match pass of `normalize_player_name`: the first corrections
entry, in table order, whose misspelling is a substring of the cleaned name
and has at least 4 characters. -/
def findPartialCorrection (cleaned : String) :
    List (String × String) → Option (String × String)
  | [] => none
  | (mis, corr) :: t =>
    if containsSubStr cleaned mis && mis.length ≥ 4 then some (mis, corr)
    else findPartialCorrection cleaned t

/-- `normalize_player_name` from `cricket_data_adapter.py`: extract the
special "what are X - statistics" format, clean whitespace and case, then
canonical-name lookup, exact correction lookup, partial correction, and
finally generic word capitalization. -/
def normalizePlayerName (playerName : String) : String :=
  if playerName = "" then ""
  else
    let afterSpecial : String :=
      match searchSpecial (lowerStr playerName).toList with
      | some g => g.asString
      | none => playerName
    let cleaned := lowerStr (joinSpace (pySplitWs afterSpecial))
    match assocFind canonicalNames cleaned with
    | some canon => canon
    | none =>
      match assocFind nameCorrections cleaned with
      | some corrected =>
        (match assocFind canonicalNames corrected with
         | some canon => canon
         | none => corrected)
      | none =>
        match findPartialCorrection cleaned nameCorrections with
        | some (mis, corr) =>
          let corrected := pyReplace cleaned mis corr
          (match assocFind canonicalNames corrected with
           | some canon => canon
           | none => corrected)
        | none => joinSpace ((pySplitWs cleaned).map pyCapitalize)

/-! ### The real-time enrichment merge of `get_player_stats`
(cricket_data_adapter.py, lines 186-196 on the cache path and 240-252 on
the fresh-fetch path). -/

/-- The `real_time_fields` list of `get_player_stats`. -/
def realTimeFields : List String := ["recent_form", "recent_wickets", "current_form"]

/-- The enrichment loop: `for field in fields: if field in cb: base[field] = cb[field]`. -/
def mergeFields (cb : Dict) : List String → Dict → Dict
  | [], acc => acc
  | f :: fs, acc =>
    mergeFields cb fs
      (match pyGet cb f with
       | some v => pySet acc f v
       | none => acc)

/-- Enrich a historical base record with the volatile fields of a fresher
real-time record, as both merge sites of `get_player_stats` do. -/
def mergeRealTime (base cb : Dict) : Dict :=
  mergeFields cb realTimeFields base

/-! ### `get_player_stats` fresh-fetch pipeline
(cricket_data_adapter.py, lines 204-284).

The two source steps are modelled by their outcomes, since the claims
quantify over whatever the sources return:
* `cricsheetStep` is the outcome of lines 211-220: `.error` when
  `cricsheet.get_player_stats` raised (the adapter catches and logs),
  `.ok (some base)` when a player with `matches_played > 0` was found and
  converted by `_convert_cricsheet_player_stats`, `.ok none` otherwise
  (including Cricsheet disabled).
* `cricbuzzStep` is the outcome of lines 223-254: `.ok (some cb)` when the
  player search and stats call both succeeded and the record was converted
  by `_convert_player_stats`, `.error` when an exception was raised and
  caught, `.ok none` otherwise (including the API unavailable). -/
structure Sources where
  cricsheetStep : Except Unit (Option Dict)
  cricbuzzStep : Except Unit (Option Dict)

/-- Steps 1-2 of the fresh fetch: Cricsheet base record, then Cricbuzz as
enrichment of the base or as the primary source (lines 207-254).  `none`
models the Python `player_data = None`. -/
def fetchPlayerData (src : Sources) : Option Dict :=
  let playerData : Option Dict :=
    match src.cricsheetStep with
    | .ok (some base) => some base
    | _ => none
  match src.cricbuzzStep with
  | .ok (some cb) =>
    match playerData with
    | some base => some (mergeRealTime base cb)
    | none => some cb
  | _ => playerData

/-! ### `PLAYER_DATA` of `cricket_data_reliable.py` (lines 19-177), the
static fallback table of the adapter. -/

/-- Fallback record for Virat Kohli. -/
def viratKohliRecord : Dict :=
  [("name", .str "Virat Kohli"),
   ("team", .str "India"),
   ("role", .str "Batsman"),
   ("batting_avg", .num 53.5),
   ("strike_rate", .num 138.2),
   ("recent_form", .arr [.num 82, .num 61, .num 45, .num 77, .num 33]),
   ("fantasy_points_avg", .num 85.3),
   ("ownership", .num 78.4),
   ("price", .num 10.5),
   ("matches_played", .num 115),
   ("description", .str "One of the best batsmen in the world, known for his aggressive batting and consistency."),
   ("source", .str "Cricsheet"),
   ("runs", .num 24537),
   ("centuries", .num 76),
   ("fifties", .num 133),
   ("highest_score", .num 254),
   ("test_avg", .num 48.15),
   ("odi_avg", .num 58.69),
   ("t20_avg", .num 52.73),
   ("test_centuries", .num 29),
   ("odi_centuries", .num 46),
   ("t20_centuries", .num 1),
   ("ipl_runs", .num 7263),
   ("ipl_avg", .num 37.24),
   ("ipl_strike_rate", .num 130.02),
   ("recent_performances", .arr
     [.obj [("date", .str "2023-11-19"), ("runs", .num 82), ("balls", .num 56), ("match", .str "India vs Australia")],
      .obj [("date", .str "2023-11-15"), ("runs", .num 61), ("balls", .num 41), ("match", .str "India vs New Zealand")],
      .obj [("date", .str "2023-11-11"), ("runs", .num 45), ("balls", .num 32), ("match", .str "India vs England")],
      .obj [("date", .str "2023-11-05"), ("runs", .num 77), ("balls", .num 48), ("match", .str "India vs South Africa")],
      .obj [("date", .str "2023-10-29"), ("runs", .num 33), ("balls", .num 29), ("match", .str "India vs Sri Lanka")]])]

/-- The remaining fallback records and the full `PLAYER_DATA` table. -/
def fallbackPlayerData : List Dict :=
  [viratKohliRecord,
   [("name", .str "Rohit Sharma"), ("team", .str "India"), ("role", .str "Batsman"),
    ("batting_avg", .num 48.7), ("strike_rate", .num 140.3),
    ("recent_form", .arr [.num 76, .num 45, .num 83, .num 12, .num 65]),
    ("fantasy_points_avg", .num 82.1), ("ownership", .num 74.1), ("price", .num 10.0),
    ("matches_played", .num 125),
    ("description", .str "Explosive opening batsman known for his ability to hit sixes with ease.")],
   [("name", .str "Jasprit Bumrah"), ("team", .str "India"), ("role", .str "Bowler"),
    ("bowling_avg", .num 20.3), ("economy", .num 6.7),
    ("recent_wickets", .arr [.num 3, .num 2, .num 4, .num 1, .num 3]),
    ("fantasy_points_avg", .num 78.5), ("ownership", .num 65.3), ("price", .num 9.5),
    ("matches_played", .num 67),
    ("description", .str "Premier fast bowler with an unorthodox action, excellent at bowling yorkers.")],
   [("name", .str "Babar Azam"), ("team", .str "Pakistan"), ("role", .str "Batsman"),
    ("batting_avg", .num 50.1), ("strike_rate", .num 129.8),
    ("recent_form", .arr [.num 68, .num 45, .num 72, .num 55, .num 83]),
    ("fantasy_points_avg", .num 79.2), ("ownership", .num 68.9), ("price", .num 10.0),
    ("matches_played", .num 95),
    ("description", .str "Technically sound batsman with elegant stroke play and consistency.")],
   [("name", .str "Kane Williamson"), ("team", .str "New Zealand"), ("role", .str "Batsman"),
    ("batting_avg", .num 47.9), ("strike_rate", .num 125.6),
    ("recent_form", .arr [.num 45, .num 62, .num 38, .num 71, .num 55]),
    ("fantasy_points_avg", .num 72.5), ("ownership", .num 42.1), ("price", .num 9.0),
    ("matches_played", .num 85),
    ("description", .str "Technically gifted batsman with excellent leadership qualities.")],
   [("name", .str "Ben Stokes"), ("team", .str "England"), ("role", .str "All-rounder"),
    ("batting_avg", .num 42.3), ("bowling_avg", .num 28.7), ("strike_rate", .num 135.2),
    ("economy", .num 8.2),
    ("recent_form", .arr [.num 55, .num 32, .num 68, .num 41, .num 72]),
    ("recent_wickets", .arr [.num 1, .num 2, .num 0, .num 3, .num 1]),
    ("fantasy_points_avg", .num 88.7), ("ownership", .num 72.3), ("price", .num 10.5),
    ("matches_played", .num 78),
    ("description", .str "Impact player who can change the game with both bat and ball.")],
   [("name", .str "Rashid Khan"), ("team", .str "Afghanistan"), ("role", .str "Bowler"),
    ("bowling_avg", .num 17.8), ("economy", .num 6.3),
    ("recent_wickets", .arr [.num 4, .num 2, .num 3, .num 2, .num 3]),
    ("fantasy_points_avg", .num 76.2), ("ownership", .num 58.7), ("price", .num 9.0),
    ("matches_played", .num 72),
    ("description", .str "World-class leg spinner with excellent control and variations.")],
   [("name", .str "Mitchell Starc"), ("team", .str "Australia"), ("role", .str "Bowler"),
    ("bowling_avg", .num 22.5), ("economy", .num 7.2),
    ("recent_wickets", .arr [.num 3, .num 1, .num 4, .num 2, .num 3]),
    ("fantasy_points_avg", .num 75.8), ("ownership", .num 63.8), ("price", .num 9.5),
    ("matches_played", .num 89),
    ("description", .str "Left-arm fast bowler known for his pace and ability to swing the ball.")],
   [("name", .str "Jos Buttler"), ("team", .str "England"), ("role", .str "Wicketkeeper"),
    ("batting_avg", .num 45.2), ("strike_rate", .num 149.8),
    ("recent_form", .arr [.num 73, .num 89, .num 45, .num 32, .num 67]),
    ("fantasy_points_avg", .num 81.5), ("ownership", .num 61.2), ("price", .num 9.5),
    ("matches_played", .num 92),
    ("description", .str "Explosive wicketkeeper-batsman with innovative shot-making ability.")],
   [("name", .str "Shakib Al Hasan"), ("team", .str "Bangladesh"), ("role", .str "All-rounder"),
    ("batting_avg", .num 38.5), ("bowling_avg", .num 24.3), ("strike_rate", .num 126.7),
    ("economy", .num 6.8),
    ("recent_form", .arr [.num 45, .num 38, .num 62, .num 55, .num 41]),
    ("recent_wickets", .arr [.num 2, .num 3, .num 1, .num 2, .num 2]),
    ("fantasy_points_avg", .num 85.3), ("ownership", .num 45.2), ("price", .num 9.0),
    ("matches_played", .num 102),
    ("description", .str "One of the best all-rounders in the world, consistent with both bat and ball.")]]

/-! ### `_get_fallback_player_stats` (cricket_data_adapter.py, lines
364-426). -/

/-- The `player["name"]` access: every record of the fallback table carries
a string name, so the lookup never fails on this data. -/
def recordName (p : Dict) : String :=
  match pyGet p "name" with
  | some (.str s) => s
  | _ => ""

/-- Exact-match scan: first player whose lower-cased name equals the query
(also the inner scan of the misspelling stage). -/
def findExactPlayer (lower : String) : List Dict → Option Dict
  | [] => none
  | p :: ps =>
    if lowerStr (recordName p) = lower then some p else findExactPlayer lower ps

/-- Partial-match scan: first player whose name contains the query as a
substring. -/
def findPartialPlayer (lower : String) : List Dict → Option Dict
  | [] => none
  | p :: ps =>
    if containsSubStr (lowerStr (recordName p)) lower then some p
    else findPartialPlayer lower ps

/-- Fuzzy stage test: some query part of length at least 4 occurs verbatim
among the parts of the player name. -/
def fuzzyHit (queryParts nameParts : List String) : Bool :=
  queryParts.any fun part => nameParts.contains part && part.length ≥ 4

/-- Fuzzy-match scan over the table. -/
def findFuzzyPlayer (queryParts : List String) : List Dict → Option Dict
  | [] => none
  | p :: ps =>
    if fuzzyHit queryParts (pySplitWs (lowerStr (recordName p))) then some p
    else findFuzzyPlayer queryParts ps

/-- The `common_misspellings` table of `_get_fallback_player_stats`. -/
def commonMisspellings : List (String × String) :=
  [("kohli", "virat kohli"),
   ("kolhi", "virat kohli"),
   ("sharma", "rohit sharma"),
   ("dhoni", "ms dhoni"),
   ("williamson", "kane williamson"),
   ("smith", "steve smith"),
   ("azam", "babar azam"),
   ("bumrah", "jasprit bumrah"),
   ("stokes", "ben stokes"),
   ("rabada", "kagiso rabada"),
   ("khan", "rashid khan")]

/-- Misspelling stage: for each query part that is a known misspelling,
look for the corrected full name in the table; on a miss continue with the
remaining parts, exactly as the nested Python loops do. -/
def findMisspellPlayer : List String → Option Dict
  | [] => none
  | part :: rest =>
    match assocFind commonMisspellings part with
    | some correct =>
      (match findExactPlayer correct fallbackPlayerData with
       | some p => some p
       | none => findMisspellPlayer rest)
    | none => findMisspellPlayer rest

/-- The default record returned when no fallback entry matches (lines
415-426). -/
def defaultFallbackRecord (playerName : String) : Dict :=
  [("name", .str playerName),
   ("team", .str "Unknown"),
   ("role", .str "Unknown"),
   ("batting_avg", .num 0),
   ("strike_rate", .num 0),
   ("recent_form", .arr []),
   ("fantasy_points_avg", .num 0),
   ("ownership", .num 0),
   ("price", .num 0),
   ("matches_played", .num 0)]

/-- `_get_fallback_player_stats`: exact, partial, fuzzy and misspelling
stages over the static table, then the default record. -/
def fallbackPlayerStats (playerName : String) : Dict :=
  let lower := lowerStr playerName
  match findExactPlayer lower fallbackPlayerData with
  | some p => p
  | none =>
    match findPartialPlayer lower fallbackPlayerData with
    | some p => p
    | none =>
      match findFuzzyPlayer (pySplitWs lower) fallbackPlayerData with
      | some p => p
      | none =>
        match findMisspellPlayer (pySplitWs lower) with
        | some p => p
        | none => defaultFallbackRecord playerName

/-- All four matching stages of the fallback lookup fail for this name. -/
def fallbackTableMiss (playerName : String) : Prop :=
  findExactPlayer (lowerStr playerName) fallbackPlayerData = none ∧
  findPartialPlayer (lowerStr playerName) fallbackPlayerData = none ∧
  findFuzzyPlayer (pySplitWs (lowerStr playerName)) fallbackPlayerData = none ∧
  findMisspellPlayer (pySplitWs (lowerStr playerName)) = none

/-- The cache-save block of `get_player_stats` (lines 262-279): stamp the
timestamp, force the corrected name, and record the original query when it
differs. -/
def stampRecord (d : Dict) (correctedName ts origName : String) : Dict :=
  let d₁ := pySet d "last_updated" (.str ts)
  let d₂ := pySet d₁ "name" (.str correctedName)
  if origName ≠ correctedName then pySet d₂ "original_query" (.str origName) else d₂

/-- The fresh-fetch path of `get_player_stats` (lines 204-284): sources,
fallback on a falsy result, then the cache-save stamping.  `ts` is the
`datetime.now().isoformat()` timestamp. -/
def getPlayerStatsFresh (src : Sources) (correctedName ts origName : String) : Dict :=
  let d :=
    match fetchPlayerData src with
    | some d => if d.isEmpty then fallbackPlayerStats correctedName else d
    | none => fallbackPlayerStats correctedName
  stampRecord d correctedName ts origName

/-! ### The valid-cache path of `get_player_stats` (lines 160-200).

When the per-player cache file is fresh (less than 24 hours old) the
function returns the cached record, but when `CRICKET_API_AVAILABLE` it
first calls `api.search_players` and `api.get_player_stats` and overwrites
the volatile fields of the cached record.  `searchStep` is the outcome of
`api.search_players` and `statsStep` the outcome of
`api.get_player_stats` composed with `_convert_player_stats` (`.ok none`
when the stats were falsy, `.error` when an exception was raised and
caught by the surrounding `try`). -/
structure RealtimeEnv where
  cricketApiAvailable : Bool
  searchStep : Except Unit (List Dict)
  statsStep : Except Unit (Option Dict)

/-- The valid-cache path, returning the served record together with the
number of calls made to the real-time source client (what a mocked-client
call-count assertion would observe). -/
def getPlayerStatsCacheHit (env : RealtimeEnv) (cached : Dict) : Dict × Nat :=
  if env.cricketApiAvailable then
    match env.searchStep with
    | .error _ => (cached, 1)
    | .ok [] => (cached, 1)
    | .ok (_ :: _) =>
      match env.statsStep with
      | .error _ => (cached, 2)
      | .ok none => (cached, 2)
      | .ok (some currentData) => (mergeRealTime cached currentData, 2)
  else (cached, 0)

/-! ### `make_api_request` (cricket_api_client.py, lines 73-162). -/

/-- Exceptions that can escape `make_api_request`: `data.get(...)` raises
`AttributeError` when the parsed JSON body is not a dict. -/
inductive PyErr where
  | attributeError
deriving DecidableEq

/-- Environment of one `make_api_request` call.  `cacheValid` is
`is_cache_valid(cache_file, endpoint_type)`, `cacheExists` is
`os.path.exists(cache_file)`, `cacheLoad` the result of `load_from_cache`
(`none` models the load failure it catches internally), and `response` the
network outcome: `.error msg` a `requests.exceptions.RequestException`
(connection error, HTTP error from `raise_for_status`, JSON decode error),
`.ok body` the parsed JSON body. -/
structure ApiEnv where
  cacheValid : Bool
  cacheExists : Bool
  cacheLoad : Option Json
  response : Except String Json

/-- The error response literal of `make_api_request`. -/
def errorDict (msg : Json) : Json :=
  .obj [("status", .str "error"), ("message", msg), ("data", .arr [])]

/-- The stale-cache fallback of the two failure branches: serve the cached
file when it exists and loads to truthy data, otherwise the error dict. -/
def cacheFallback (env : ApiEnv) (msg : Json) : Json :=
  if env.cacheExists then
    match env.cacheLoad with
    | some d => if d.truthy then d else errorDict msg
    | none => errorDict msg
  else errorDict msg

/-- Whether a JSON value is a given string (Python `v == "success"`; any
non-string compares unequal). -/
def Json.isStr (j : Json) (s : String) : Bool :=
  match j with
  | .str s₀ => s₀ = s
  | _ => false

/-- The `data.get("status") == "success"` check (`None` when the key is
absent, and `None != "success"`). -/
def statusSuccess (kvs : Dict) : Bool :=
  match pyGet kvs "status" with
  | some v => v.isStr "success"
  | none => false

/-- The fresh-cache short circuit at the top of `make_api_request`: the
cache is served when no refresh is forced, the file is valid, and
`load_from_cache` produced truthy data. -/
def freshCacheServe (env : ApiEnv) (forceRefresh : Bool) : Option Json :=
  if ¬ forceRefresh ∧ env.cacheValid then
    match env.cacheLoad with
    | some d => if d.truthy then some d else none
    | none => none
  else none

/-- `make_api_request`: fresh-cache short circuit, then the network call,
the `status != "success"` check with stale-cache fallback, and the
`RequestException` handler with the same fallback.  A body that is not a
JSON object makes `data.get("status")` raise `AttributeError`. -/
def makeApiRequest (env : ApiEnv) (forceRefresh : Bool) : Except PyErr Json :=
  match freshCacheServe env forceRefresh with
  | some d => .ok d
  | none =>
    match env.response with
    | .error e => .ok (cacheFallback env (.str e))
    | .ok body =>
      match body with
      | .obj kvs =>
        if statusSuccess kvs then .ok body
        else .ok (cacheFallback env (pyGetD kvs "message" (.str "Unknown API error")))
      | _ => .error .attributeError

/-- A response outcome counted as a failure by the claim: a network error
or an API-level error body (an object whose status is not "success"). -/
def apiFailure (r : Except String Json) : Prop :=
  match r with
  | .error _ => True
  | .ok (.obj kvs) => statusSuccess kvs = false
  | .ok _ => False

/-- The response body shape for which `data.get` cannot raise: a network
error, or a body that parses to a JSON object. -/
def bodyIsObjOrNetErr (r : Except String Json) : Prop :=
  match r with
  | .error _ => True
  | .ok (.obj _) => True
  | .ok _ => False

/-- The message the failure branches attach to the error dict. -/
def failureMsg (r : Except String Json) : Json :=
  match r with
  | .error e => .str e
  | .ok (.obj kvs) => pyGetD kvs "message" (.str "Unknown API error")
  | .ok _ => .str ""

/-- Whether the call is served from the fresh cache before any network
activity. -/
def servedFromFreshCache (env : ApiEnv) (forceRefresh : Bool) : Prop :=
  (freshCacheServe env forceRefresh).isSome = true

/-! ### Scoring heuristics (fantasy_recommendations.py).

A player record as the scoring functions read it.  Every record the
adapter produces carries the `name`, `team` and `role` keys, so those are
plain fields; the keys the functions guard with `in` or read through
`.get(key, default)` are `Option` fields, with the Python default applied
at the use site. -/
structure Player where
  name : String
  team : String
  role : String
  recent_form : Option (List ℚ)
  ownership : Option ℚ
  price : Option ℚ
  fantasy_points_avg : Option ℚ
deriving DecidableEq

/-- A match record as the scoring functions read it: only the `teams`
string is consulted. -/
structure MatchRec where
  teams : String
deriving DecidableEq

/-- Python `pitch_conditions and pitch_conditions.get(key, False)`: falsy
for `None` or an empty dict, otherwise the truthiness of the looked-up
value (`False` when the key is absent). -/
def pitchFlag (pc : Option Dict) (key : String) : Bool :=
  match pc with
  | none => false
  | some d => ¬ d.isEmpty && (pyGetD d key (.bool false)).truthy

/-- Python `round(x, 1)`: the nearest multiple of 1/10.  Python rounds
exact halves to even whereas `round` rounds them up; no statement below
depends on the tie case. -/
def pyRound1 (q : ℚ) : ℚ :=
  (round (10 * q) : ℤ) / 10

/-- Splitter for Python `s.split(sep)` with a non-empty separator:
non-overlapping occurrences, left to right.  The fuel is the length of the
string. -/
def splitSepFuel : Nat → List Char → List Char → List (List Char)
  | 0, l, _ => [l]
  | Nat.succ n, l, sep =>
    match l with
    | [] => [[]]
    | c :: t =>
      if lStartsWith sep l then [] :: splitSepFuel n (l.drop sep.length) sep
      else
        match splitSepFuel n t sep with
        | [] => [[c]]
        | w :: ws => (c :: w) :: ws

/-- Python `s.split(sep)` for non-empty `sep`. -/
def pySplitOn (s sep : String) : List String :=
  (splitSepFuel s.length s.toList sep.toList).map List.asString

/-- Average used by the form factor:
`sum(recent_form) / len(recent_form) if recent_form else 0`. -/
def formAvg (rf : List ℚ) : ℚ :=
  if rf.isEmpty then 0 else rf.sum / rf.length

/-- The deterministic factors of `_calculate_differential_score` (lines
328-379): base 5.0, the recent-form factor, the role/pitch factor, the
ownership factor and the price factor, in source order. -/
def diffScoreDet (p : Player) (bowlerF batsmanF : Bool) : ℚ :=
  let s₀ : ℚ := 5
  let s₁ :=
    match p.recent_form with
    | some rf =>
      let avg := formAvg rf
      if avg > 50 then s₀ + 2 else if avg > 30 then s₀ + 1
      else if avg < 15 then s₀ - 1 else s₀
    | none => s₀
  let role := lowerStr p.role
  let s₂ :=
    if containsSubStr role "all-rounder" then s₁ + 1.5
    else if containsSubStr role "bowler" && bowlerF then s₁ + 1
    else if containsSubStr role "batsman" && batsmanF then s₁ + 1
    else s₁
  let ownership := p.ownership.getD 50
  let s₃ := if ownership < 10 then s₂ + 2 else if ownership < 25 then s₂ + 1 else s₂
  let price := p.price.getD 9
  if price < 7 then s₃ + 1 else s₃

/-- `_calculate_differential_score` with the two pitch lookups and the two
`random.uniform` draws as explicit arguments: `matchupDraw` is
`random.uniform(-0.5, 1.5)` (added only when the teams string splits in
two) and `jitterDraw` is `random.uniform(-0.2, 0.2)`. -/
def diffScoreCore (p : Player) (bowlerF batsmanF : Bool) (m : MatchRec)
    (matchupDraw jitterDraw : ℚ) : ℚ :=
  let s₄ := diffScoreDet p bowlerF batsmanF
  let s₅ :=
    if (pySplitOn m.teams " vs ").length = 2 then s₄ + matchupDraw else s₄
  pyRound1 (s₅ + jitterDraw)

/-- `_calculate_differential_score` with the pitch flags extracted from the
pitch-conditions argument. -/
def calcDifferentialScore (p : Player) (pc : Option Dict) (m : MatchRec)
    (matchupDraw jitterDraw : ℚ) : ℚ :=
  diffScoreCore p (pitchFlag pc "bowler_friendly") (pitchFlag pc "batsman_friendly")
    m matchupDraw jitterDraw

/-- `_calculate_player_score` (lines 381-416); the jitter is
`random.uniform(-0.1, 0.1)`. -/
def playerScoreCore (p : Player) (bowlerF batsmanF : Bool) (jitterDraw : ℚ) : ℚ :=
  let s₀ : ℚ := 5
  let s₁ :=
    match p.recent_form with
    | some rf =>
      let avg := formAvg rf
      if avg > 50 then s₀ + 3 else if avg > 30 then s₀ + 1.5
      else if avg < 15 then s₀ - 1 else s₀
    | none => s₀
  let role := lowerStr p.role
  let s₂ :=
    if containsSubStr role "all-rounder" then s₁ + 1
    else if containsSubStr role "bowler" && bowlerF then s₁ + 1.5
    else if containsSubStr role "batsman" && batsmanF then s₁ + 1.5
    else s₁
  let fpa := p.fantasy_points_avg.getD 0
  let s₃ := if fpa > 80 then s₂ + 2 else if fpa > 60 then s₂ + 1 else s₂
  pyRound1 (s₃ + jitterDraw)

/-- `_calculate_player_score` with the pitch flags extracted. -/
def calcPlayerScore (p : Player) (pc : Option Dict) (jitterDraw : ℚ) : ℚ :=
  playerScoreCore p (pitchFlag pc "bowler_friendly") (pitchFlag pc "batsman_friendly")
    jitterDraw

/-- `_calculate_captain_score` (lines 418-468); the match argument of the
Python function is never read.  The consistency factor compares
`std_dev = variance ** 0.5` against 10 and 20, which over non-negative
variance is exactly `variance < 100` and `variance < 400`.  The jitter is
`random.uniform(-0.2, 0.2)`. -/
def captainScoreCore (p : Player) (bowlerF batsmanF : Bool) (jitterDraw : ℚ) : ℚ :=
  let s₀ : ℚ := 5
  let s₁ :=
    match p.recent_form with
    | some rf =>
      let avg := formAvg rf
      if avg > 50 then s₀ + 3 else if avg > 30 then s₀ + 1.5
      else if avg < 15 then s₀ - 2 else s₀
    | none => s₀
  let role := lowerStr p.role
  let s₂ :=
    if containsSubStr role "all-rounder" then s₁ + 1.5
    else if containsSubStr role "bowler" && bowlerF then s₁ + 1
    else if containsSubStr role "batsman" && batsmanF then s₁ + 1
    else s₁
  let fpa := p.fantasy_points_avg.getD 0
  let s₃ := if fpa > 80 then s₂ + 2.5 else if fpa > 60 then s₂ + 1.5 else s₂
  let s₄ :=
    match p.recent_form with
    | some rf =>
      if ¬ rf.isEmpty then
        let mean := rf.sum / rf.length
        let variance := ((rf.map fun x => ((x - mean) ^ 2 : ℚ)).sum) / (rf.length : ℚ)
        if variance < 100 then s₃ + 1.5 else if variance < 400 then s₃ + 0.5 else s₃
      else s₃
    | none => s₃
  pyRound1 (s₄ + jitterDraw)

/-- `_calculate_captain_score` with the pitch flags extracted. -/
def calcCaptainScore (p : Player) (pc : Option Dict) (jitterDraw : ℚ) : ℚ :=
  captainScoreCore p (pitchFlag pc "bowler_friendly") (pitchFlag pc "batsman_friendly")
    jitterDraw

/-! ### `get_differential_picks` (lines 40-124) and `get_captain_picks`
(lines 198-271), from the point where the player pool of the selected
match has been resolved.  The per-player random draws travel with the
pool; `list.sort(key=..., reverse=True)` is a stable sort by descending
score, modelled with `insertionSort` (the claims below do not depend on
the order of equal scores). -/

/-- Descending order on score-carrying pairs. -/
def scoreGE {α : Type} (a b : α × ℚ) : Prop := b.2 ≤ a.2

instance {α : Type} : DecidableRel (@scoreGE α) :=
  fun a b => inferInstanceAs (Decidable (b.2 ≤ a.2))

instance {α : Type} : IsTotal (α × ℚ) scoreGE :=
  ⟨fun a b => (le_total b.2 a.2).imp (fun h => h) (fun h => h)⟩

instance {α : Type} : IsTrans (α × ℚ) scoreGE :=
  ⟨fun _ _ _ h₁ h₂ => le_trans h₂ h₁⟩

/-- The body of `get_differential_picks` over the resolved pool: skip
players owned above 50%, score the rest (each with its own two draws),
keep scores above 7, sort descending and take the top 5. -/
def getDifferentialPicks (pool : List (Player × ℚ × ℚ)) (pc : Option Dict)
    (m : MatchRec) : List (Player × ℚ) :=
  let kept := pool.filter fun x => ¬ x.1.ownership.getD 0 > 50
  let scored := kept.map fun x => (x.1, calcDifferentialScore x.1 pc m x.2.1 x.2.2)
  let picks := scored.filter fun y => y.2 > 7
  (picks.insertionSort scoreGE).take 5

/-- One entry of the `get_captain_picks` result (the free-text reasoning
string is orthogonal to every claim and omitted). -/
structure Pick where
  name : String
  role : String
  team : String
  captain_score : ℚ
  recommendation : String
deriving DecidableEq

/-- Build one result entry from a scored player. -/
def mkPick (x : Player × ℚ) (label : String) : Pick :=
  { name := x.1.name, role := x.1.role, team := x.1.team,
    captain_score := x.2, recommendation := label }

/-- The `for i, player in enumerate(all_players[:6])` loop: the first three
entries are labelled Captain, the rest Vice-Captain. -/
def buildPicks : Nat → List (Player × ℚ) → List Pick
  | _, [] => []
  | i, x :: t =>
    mkPick x (if i < 3 then "Captain" else "Vice-Captain") :: buildPicks (i + 1) t

/-- Score every player of the pool with its captain score (each with its
own jitter draw). -/
def scoredPlayers (pool : List (Player × ℚ)) (pc : Option Dict) : List (Player × ℚ) :=
  pool.map fun x => (x.1, calcCaptainScore x.1 pc x.2)

/-- The body of `get_captain_picks` over the resolved pool: score, sort by
captain score descending, and label the top six. -/
def getCaptainPicks (pool : List (Player × ℚ)) (pc : Option Dict) : List Pick :=
  let sorted := (scoredPlayers pool pc).insertionSort scoreGE
  buildPicks 0 (sorted.take 6)

/-! ### `get_pitch_conditions` (cricket_data_adapter.py, lines 638-656)
over the concatenated match list
`get_upcoming_matches() + get_live_cricket_matches() + get_recent_matches()`,
with the three `random.randint(4, 8)` draws explicit. -/

/-- The `m.get("venue", "")` read; every match record the adapter stores
carries a string venue. -/
def venueOf (m : Dict) : String :=
  match pyGet m "venue" with
  | some (.str s) => s
  | _ => ""

/-- The venue filter: `venue.lower() in m.get("venue", "").lower()`. -/
def venueMatchList (ms : List Dict) (venue : String) : List Dict :=
  ms.filter fun m => containsSubStr (lowerStr (venueOf m)) (lowerStr venue)

/-- `get_pitch_conditions`: the pitch conditions of the first stored match
at the venue (an empty dict when that match has none), otherwise the
synthesized random conditions. -/
def getPitchConditions (ms : List Dict) (venue : String) (r₁ r₂ r₃ : ℤ) : Json :=
  match venueMatchList ms venue with
  | m :: _ => pyGetD m "pitch_conditions" (.obj [])
  | [] =>
    .obj [("batting_friendly", .num (r₁ : ℚ)),
          ("pace_friendly", .num (r₂ : ℚ)),
          ("spin_friendly", .num (r₃ : ℚ))]

/-- One entry of `MATCH_DATA` from `cricket_data_reliable.py` (lines
180-241); the date strings are computed from the current clock and are
parameters here. -/
def upcomingFallbackMatch (teams venue date : String) (bf pf sf : ℤ) : Dict :=
  [("teams", .str teams), ("venue", .str venue), ("date", .str date),
   ("match_type", .str "T20"), ("status", .str "Upcoming"),
   ("pitch_conditions",
    .obj [("batting_friendly", .num (bf : ℚ)),
          ("pace_friendly", .num (pf : ℚ)),
          ("spin_friendly", .num (sf : ℚ))])]

/-- The `MATCH_DATA` fallback table. -/
def fallbackMatchData (d₁ d₂ d₃ d₄ d₅ : String) : List Dict :=
  [upcomingFallbackMatch "India vs Australia" "Mumbai" d₁ 8 5 4,
   upcomingFallbackMatch "England vs South Africa" "Chennai" d₂ 5 3 9,
   upcomingFallbackMatch "New Zealand vs Pakistan" "Delhi" d₃ 6 7 5,
   upcomingFallbackMatch "Australia vs West Indies" "Bangalore" d₄ 9 4 3,
   upcomingFallbackMatch "Sri Lanka vs Bangladesh" "Kolkata" d₅ 7 6 6]

/-- The `LIVE_MATCH_DATA` fallback table (lines 244-255): its entries
carry no `pitch_conditions` key. -/
def fallbackLiveMatchData : List Dict :=
  [[("teams", .str "India vs England"),
    ("status", .str "India 187/4 (18.2 ov), England need 52 runs from 24 balls"),
    ("venue", .str "Wankhede Stadium, Mumbai")],
   [("teams", .str "Australia vs Pakistan"),
    ("status", .str "Australia 156/3 (16.0 ov), Pakistan 172/8 (20.0 ov)"),
    ("venue", .str "Melbourne Cricket Ground")]]

/-! ### Concrete data used to evaluate the theorems on explicit inputs -/

/-- A concrete historical base record. -/
def baseRecordEx : Dict :=
  [("name", .str "Virat Kohli"), ("team", .str "India"), ("role", .str "Batsman"),
   ("batting_avg", .num 53.5), ("bowling_avg", .num 0), ("price", .num 10.5),
   ("ownership", .num 78.4), ("recent_form", .arr [.num 10, .num 20])]

/-- A concrete real-time record disagreeing with the base on both volatile
and historical fields. -/
def cbRecordEx : Dict :=
  [("name", .str "Virat Kohli"), ("team", .str "IND"), ("batting_avg", .num 1),
   ("recent_form", .arr [.num 99]), ("recent_wickets", .arr [])]

/-- Sources where Cricsheet and Cricbuzz both return data. -/
def sourcesEx : Sources := ⟨.ok (some baseRecordEx), .ok (some cbRecordEx)⟩

/-- Sources where Cricsheet finds nothing and Cricbuzz raises. -/
def missSources : Sources := ⟨.ok none, .error ()⟩

/-- An API environment with no usable cache and a response whose JSON body
is an array. -/
def apiEnvArrayEx : ApiEnv := ⟨false, false, none, .ok (.arr [])⟩

/-- An API environment with no cache at all and a network failure. -/
def apiEnvNetFailEx : ApiEnv := ⟨false, false, none, .error "timeout"⟩

/-- A concrete match record. -/
def matchEx : MatchRec := ⟨"India vs Australia"⟩

/-- A minimal player record: no recent form, default ownership and price. -/
def plainPlayer : Player :=
  { name := "X", team := "India", role := "", recent_form := none,
    ownership := none, price := none, fantasy_points_avg := none }

/-- A very low-ownership player: the ownership factor pushes the
differential score above the 7 threshold. -/
def playerLowOwn : Player :=
  { name := "Y", team := "India", role := "", recent_form := none,
    ownership := some 5, price := some 9, fantasy_points_avg := none }

/-- A concrete differential-picks pool: one eligible player with matchup
draw 2 and jitter 0. -/
def diffPoolEx : List (Player × ℚ × ℚ) := [(playerLowOwn, 2, 0)]

/-- A simple pool member for the captain-picks theorem. -/
def basicPlayer (nm : String) : Player :=
  { name := nm, team := "India", role := "Batsman", recent_form := none,
    ownership := none, price := none, fantasy_points_avg := none }

/-- A captain-picks pool of six players with their jitter draws. -/
def captainPoolEx : List (Player × ℚ) :=
  [(basicPlayer "A", 0), (basicPlayer "B", 0.1), (basicPlayer "C", -0.1),
   (basicPlayer "D", 0.2), (basicPlayer "E", -0.2), (basicPlayer "F", 0)]

/-- The concatenated match list `get_pitch_conditions` sees when every
source is down and all three reads fall back to the static tables
(upcoming ++ live ++ recent), at concrete dates. -/
def allMatchesDownEx : List Dict :=
  fallbackMatchData "13 Oct" "15 Oct" "17 Oct" "14 Oct" "16 Oct" ++
    fallbackLiveMatchData ++
    fallbackMatchData "13 Oct" "15 Oct" "17 Oct" "14 Oct" "16 Oct"

/-- A cache-path environment where the API is available, the player search
succeeds and the stats call returns falsy data. -/
def realtimeEnvEx : RealtimeEnv :=
  ⟨true, .ok [[("id", .num 1413), ("name", .str "Virat Kohli")]], .ok none⟩

/-- A cache-path environment with the API key absent. -/
def realtimeEnvOffEx : RealtimeEnv := ⟨false, .ok [], .ok none⟩

/-- A pitch-conditions dict exactly as the adapter produces it. -/
def adapterPitchEx : Dict :=
  [("batting_friendly", .num 6), ("pace_friendly", .num 6), ("spin_friendly", .num 6)]

/-! ## Theorems -/

/-! ### Dict update lemmas -/

theorem pyGet_pySet_ne (k k' : String) (v : Json) (h : k' ≠ k) :
    ∀ d : Dict, pyGet (pySet d k v) k' = pyGet d k' := by
  intro d
  induction d with
  | nil => simp [pySet, pyGet, Ne.symm h]
  | cons kv t ih =>
    obtain ⟨k₀, v₀⟩ := kv
    by_cases hk : k₀ = k
    · subst hk
      simp [pySet, pyGet, Ne.symm h]
    · simp [pySet, pyGet, hk, ih]

theorem pyGet_pySet_self (k : String) (v : Json) :
    ∀ d : Dict, pyGet (pySet d k v) k = some v := by
  intro d
  induction d with
  | nil => simp [pySet, pyGet]
  | cons kv t ih =>
    obtain ⟨k₀, v₀⟩ := kv
    by_cases hk : k₀ = k
    · simp [pySet, pyGet, hk]
    · simp [pySet, pyGet, hk, ih]

theorem pySet_ne_nil (d : Dict) (k : String) (v : Json) : pySet d k v ≠ [] := by
  cases d with
  | nil => simp [pySet]
  | cons kv t =>
    obtain ⟨k₀, v₀⟩ := kv
    by_cases hk : k₀ = k <;> simp [pySet, hk]

theorem mergeFields_get_not_mem (cb : Dict) (k : String) :
    ∀ (fields : List String) (acc : Dict), k ∉ fields →
      pyGet (mergeFields cb fields acc) k = pyGet acc k := by
  intro fields
  induction fields with
  | nil => intro acc _; rfl
  | cons f fs ih =>
    intro acc h
    have hf : k ≠ f := fun hc => h (hc ▸ List.mem_cons_self f fs)
    have hfs : k ∉ fs := fun hc => h (List.mem_cons_of_mem f hc)
    unfold mergeFields
    cases hcv : pyGet cb f with
    | none => exact ih _ hfs
    | some v => rw [ih _ hfs, pyGet_pySet_ne _ _ _ hf _]

theorem mergeFields_get_mem (cb : Dict) (k : String) (v : Json)
    (hv : pyGet cb k = some v) :
    ∀ (fields : List String) (acc : Dict), fields.Nodup → k ∈ fields →
      pyGet (mergeFields cb fields acc) k = some v := by
  intro fields
  induction fields with
  | nil => intro acc _ h; cases h
  | cons f fs ih =>
    intro acc hnd hmem
    unfold mergeFields
    rcases List.mem_cons.mp hmem with hk | hk
    · subst hk
      rw [hv]
      rw [mergeFields_get_not_mem cb k fs _ ((List.nodup_cons.mp hnd).1)]
      exact pyGet_pySet_self _ _ _
    · cases hcv : pyGet cb f <;>
        exact ih _ (List.nodup_cons.mp hnd).2 hk

/-! ### Further helper lemmas -/

theorem pyGet_eq_none_of_key_not_mem (k : String) :
    ∀ d : Dict, k ∉ d.map Prod.fst → pyGet d k = none := by
  intro d
  induction d with
  | nil => intro _; rfl
  | cons kv t ih =>
    obtain ⟨k₀, v₀⟩ := kv
    intro h
    have hk : k₀ ≠ k := fun hc => h (by simp [hc])
    have ht : k ∉ t.map Prod.fst := fun hc => h (by simp [hc])
    simp [pyGet, hk, ih ht]

theorem pyRound1_shift_bounds (a e : ℚ) (lo hi : ℤ)
    (hlo : (lo : ℚ) ≤ 10 * e) (hhi : 10 * e ≤ (hi : ℚ)) :
    (lo : ℚ) / 10 ≤ pyRound1 (a + e) - pyRound1 a ∧
    pyRound1 (a + e) - pyRound1 a ≤ (hi : ℚ) / 10 := by
  have hup : round (10 * (a + e)) ≤ round (10 * a) + hi := by
    rw [round_eq, round_eq]
    have hle : 10 * (a + e) + 1 / 2 ≤ (10 * a + 1 / 2) + (hi : ℚ) := by ring_nf; linarith
    calc ⌊10 * (a + e) + 1 / 2⌋ ≤ ⌊(10 * a + 1 / 2) + (hi : ℚ)⌋ := Int.floor_le_floor hle
      _ = ⌊10 * a + 1 / 2⌋ + hi := Int.floor_add_int _ _
  have hdown : round (10 * a) + lo ≤ round (10 * (a + e)) := by
    rw [round_eq, round_eq]
    have hle : (10 * a + 1 / 2) + (lo : ℚ) ≤ 10 * (a + e) + 1 / 2 := by ring_nf; linarith
    calc ⌊10 * a + 1 / 2⌋ + lo = ⌊(10 * a + 1 / 2) + (lo : ℚ)⌋ := (Int.floor_add_int _ _).symm
      _ ≤ ⌊10 * (a + e) + 1 / 2⌋ := Int.floor_le_floor hle
  have hupq : ((round (10 * (a + e)) : ℤ) : ℚ) ≤ ((round (10 * a) : ℤ) : ℚ) + (hi : ℚ) := by
    exact_mod_cast hup
  have hdownq : ((round (10 * a) : ℤ) : ℚ) + (lo : ℚ) ≤ ((round (10 * (a + e)) : ℤ) : ℚ) := by
    exact_mod_cast hdown
  unfold pyRound1
  constructor <;> linarith

theorem buildPicks_length : ∀ (i : Nat) (l : List (Player × ℚ)),
    (buildPicks i l).length = l.length := by
  intro i l
  induction l generalizing i with
  | nil => rfl
  | cons x t ih => simp [buildPicks, ih]

theorem buildPicks_get : ∀ (i : Nat) (l : List (Player × ℚ)) (k : Nat)
    (hk : k < l.length),
    (buildPicks i l).get ⟨k, by rw [buildPicks_length]; exact hk⟩ =
      mkPick (l.get ⟨k, hk⟩) (if i + k < 3 then "Captain" else "Vice-Captain") := by
  intro i l
  induction l generalizing i with
  | nil => intro k hk; cases hk
  | cons x t ih =>
    intro k hk
    cases k with
    | zero => simp [buildPicks]
    | succ k₀ =>
      have hk₀ : k₀ < t.length := Nat.lt_of_succ_lt_succ hk
      have h1 := ih (i + 1) k₀ hk₀
      have harith : i + 1 + k₀ = i + (k₀ + 1) := by omega
      rw [harith] at h1
      simpa [buildPicks, List.get] using h1

theorem buildPicks_map_name_score : ∀ (i : Nat) (l : List (Player × ℚ)),
    (buildPicks i l).map (fun pk => (pk.name, pk.captain_score)) =
      l.map (fun x => (x.1.name, x.2)) := by
  intro i l
  induction l generalizing i with
  | nil => rfl
  | cons x t ih => simp [buildPicks, mkPick, ih]

/-! ### Claim C1 -/

/-- C1: in `get_player_stats`, when the Cricsheet source returns a base
record and the Cricbuzz source also returns data, the result of steps 1-2
is exactly the enrichment merge, and that merge takes only
`recent_form`/`recent_wickets`/`current_form` from the real-time record
while every other field keeps the value of the historical base record. -/
theorem enrichment_preserves_historical_fields (src : Sources) (base cb : Dict)
    (hcs : src.cricsheetStep = .ok (some base))
    (hcb : src.cricbuzzStep = .ok (some cb)) :
    fetchPlayerData src = some (mergeRealTime base cb) ∧
    (∀ k, k ∉ realTimeFields → pyGet (mergeRealTime base cb) k = pyGet base k) ∧
    (∀ k v, k ∈ realTimeFields → pyGet cb k = some v →
      pyGet (mergeRealTime base cb) k = some v) := by
  refine ⟨?_, ?_, ?_⟩
  · simp [fetchPlayerData, hcs, hcb]
  · intro k hk
    exact mergeFields_get_not_mem cb k realTimeFields base hk
  · intro k v hk hv
    exact mergeFields_get_mem cb k v hv realTimeFields base (by decide) hk

/-- Witness for C1 at concrete records: `batting_avg`, `team` and `price`
keep the base values while `recent_form` is taken from the real-time
record. -/
theorem enrichment_preserves_historical_fields_witness :
    (sourcesEx.cricsheetStep = .ok (some baseRecordEx) ∧
      sourcesEx.cricbuzzStep = .ok (some cbRecordEx)) ∧
    (fetchPlayerData sourcesEx = some (mergeRealTime baseRecordEx cbRecordEx) ∧
      (∀ k, k ∉ realTimeFields →
        pyGet (mergeRealTime baseRecordEx cbRecordEx) k = pyGet baseRecordEx k) ∧
      (∀ k v, k ∈ realTimeFields → pyGet cbRecordEx k = some v →
        pyGet (mergeRealTime baseRecordEx cbRecordEx) k = some v)) :=
  ⟨⟨rfl, rfl⟩,
    enrichment_preserves_historical_fields sourcesEx baseRecordEx cbRecordEx rfl rfl⟩

/-! ### Claim C3 -/

/-- C3 counterexample: `normalize_player_name("kolhi")` is corrected to
`"kohli"` by the exact-corrections table, and `"kohli"` has no canonical
form, so the result is not `"Virat Kohli"` as the claim states. -/
theorem normalize_kolhi_counterexample :
    normalizePlayerName "kolhi" = "kohli" ∧
    normalizePlayerName "kolhi" ≠ "Virat Kohli" := by
  exact ⟨by decide, by decide⟩

/-- C3 amended: only `"Virat Kohli"`/`"virat kohli"` and the two-word
misspelling `"virat kolhi"` normalize to the canonical `"Virat Kohli"`;
the single-token inputs `"kolhi"` and `"virat"` normalize to `"kohli"` and
`"Virat"` respectively. -/
theorem normalize_known_misspellings :
    normalizePlayerName "Virat Kohli" = "Virat Kohli" ∧
    normalizePlayerName "virat kohli" = "Virat Kohli" ∧
    normalizePlayerName "virat kolhi" = "Virat Kohli" ∧
    normalizePlayerName "kolhi" = "kohli" ∧
    normalizePlayerName "virat" = "Virat" := by
  exact ⟨by decide, by decide, by decide, by decide, by decide⟩

/-! ### Claim C2 -/

/-- C2 counterexample: a successful HTTP response whose JSON body is an
array (not an object) makes `data.get("status")` raise `AttributeError`,
so `make_api_request` does raise to its caller. -/
theorem make_api_request_raises_on_array_body :
    makeApiRequest apiEnvArrayEx false = .error .attributeError := rfl

/-- C2 amended: for network failures and for bodies that parse to a JSON
object, `make_api_request` never raises, and on any failure (network error
or API-level `status != "success"`) that is not served from the fresh
cache it returns the stale cached data when the cache file exists and
loads to truthy data, and otherwise the
`{"status": "error", ..., "data": []}` dictionary, as `cacheFallback`
spells out. -/
theorem make_api_request_fallback (env : ApiEnv) (forceRefresh : Bool)
    (hshape : bodyIsObjOrNetErr env.response) :
    (∃ j, makeApiRequest env forceRefresh = .ok j) ∧
    (apiFailure env.response → ¬ servedFromFreshCache env forceRefresh →
      makeApiRequest env forceRefresh = .ok (cacheFallback env (failureMsg env.response))) := by
  constructor
  · unfold makeApiRequest
    cases hfc : freshCacheServe env forceRefresh with
    | some d => exact ⟨d, rfl⟩
    | none =>
      rcases hresp : env.response with e | body
      · exact ⟨_, rfl⟩
      · rw [hresp] at hshape
        rcases body with _ | b | q | s | elems | kvs
        · simp [bodyIsObjOrNetErr] at hshape
        · simp [bodyIsObjOrNetErr] at hshape
        · simp [bodyIsObjOrNetErr] at hshape
        · simp [bodyIsObjOrNetErr] at hshape
        · simp [bodyIsObjOrNetErr] at hshape
        · cases hs : statusSuccess kvs
          · exact ⟨cacheFallback env (pyGetD kvs "message" (Json.str "Unknown API error")),
              by simp [hs]⟩
          · exact ⟨Json.obj kvs, by simp [hs]⟩
  · intro hfail hns
    unfold makeApiRequest
    cases hfc : freshCacheServe env forceRefresh with
    | some d =>
      exact absurd (by simp [servedFromFreshCache, hfc]) hns
    | none =>
      rcases hresp : env.response with e | body
      · rfl
      · rw [hresp] at hfail
        rcases body with _ | b | q | s | elems | kvs
        · simp [apiFailure] at hfail
        · simp [apiFailure] at hfail
        · simp [apiFailure] at hfail
        · simp [apiFailure] at hfail
        · simp [apiFailure] at hfail
        · have hfail' : statusSuccess kvs = false := hfail
          simp [hfail', failureMsg]

/-- Witness for C2 at a concrete environment: a network failure with no
cache file yields the error dictionary with an empty data list. -/
theorem make_api_request_fallback_witness :
    bodyIsObjOrNetErr apiEnvNetFailEx.response ∧
    ((∃ j, makeApiRequest apiEnvNetFailEx false = .ok j) ∧
      (apiFailure apiEnvNetFailEx.response → ¬ servedFromFreshCache apiEnvNetFailEx false →
        makeApiRequest apiEnvNetFailEx false =
          .ok (cacheFallback apiEnvNetFailEx (failureMsg apiEnvNetFailEx.response)))) :=
  ⟨True.intro, make_api_request_fallback apiEnvNetFailEx false True.intro⟩

/-! ### Claim C4 -/

/-- C4: a player with ownership above 50% is skipped before scoring, so it
never appears among the differential picks, whatever its other statistics,
its score draws, the pitch conditions or the match. -/
theorem differential_picks_exclude_high_ownership
    (pool : List (Player × ℚ × ℚ)) (pc : Option Dict) (m : MatchRec)
    (p : Player) (s : ℚ)
    (hmem : (p, s) ∈ getDifferentialPicks pool pc m) :
    ¬ p.ownership.getD 0 > 50 := by
  simp only [getDifferentialPicks] at hmem
  have h₁ := List.mem_of_mem_take hmem
  have h₂ := (List.perm_insertionSort scoreGE _).mem_iff.mp h₁
  have h₃ := List.mem_of_mem_filter h₂
  obtain ⟨x, hx, hxe⟩ := List.mem_map.mp h₃
  cases hxe
  exact of_decide_eq_true (List.mem_filter.mp hx).2

/-- Witness for C4: a concrete low-ownership player does make the list,
and the theorem applies to it. -/
theorem differential_picks_exclude_high_ownership_witness :
    ((playerLowOwn, (9 : ℚ)) ∈ getDifferentialPicks diffPoolEx none matchEx) ∧
    ¬ playerLowOwn.ownership.getD 0 > 50 := by
  have hr1 : containsSubStr (lowerStr "") "all-rounder" = false := by decide
  have hsplit : (pySplitOn "India vs Australia" " vs ").length = 2 := by decide
  have hscore : calcDifferentialScore playerLowOwn none matchEx 2 0 = 9 := by
    simp only [calcDifferentialScore, diffScoreCore, diffScoreDet, playerLowOwn,
      matchEx, pitchFlag, hr1, hsplit, formAvg]
    norm_num [pyRound1, round_eq]
  have hproj : playerLowOwn.ownership = some 5 := rfl
  have hmem : (playerLowOwn, (9 : ℚ)) ∈ getDifferentialPicks diffPoolEx none matchEx := by
    norm_num [getDifferentialPicks, diffPoolEx, hproj, List.filter_cons,
      List.filter_nil, List.map_cons, List.map_nil]
    rw [hscore]
    norm_num [List.insertionSort, List.orderedInsert]
  exact ⟨hmem,
    differential_picks_exclude_high_ownership diffPoolEx none matchEx playerLowOwn 9 hmem⟩

/-! ### Claim C5 -/

/-- Decomposition of a six-element list. -/
theorem list_eq_six {α : Type} : ∀ l : List α, l.length = 6 →
    ∃ a b c d e f : α, l = [a, b, c, d, e, f] := by
  intro l h
  rcases l with _ | ⟨a, l⟩; · simp at h
  rcases l with _ | ⟨b, l⟩; · simp at h
  rcases l with _ | ⟨c, l⟩; · simp at h
  rcases l with _ | ⟨d, l⟩; · simp at h
  rcases l with _ | ⟨e, l⟩; · simp at h
  rcases l with _ | ⟨f, l⟩; · simp at h
  rcases l with _ | ⟨g, l⟩
  · exact ⟨a, b, c, d, e, f, rfl⟩
  · simp at h

/-- The labelling loop on an explicit six-element pool. -/
theorem buildPicks_map_label_of_six (a b c d e f : Player × ℚ) :
    (buildPicks 0 [a, b, c, d, e, f]).map (fun pk => pk.recommendation) =
      ["Captain", "Captain", "Captain", "Vice-Captain", "Vice-Captain", "Vice-Captain"] :=
  rfl

/-- C5: over a resolved pool of at least six scored players,
`get_captain_picks` returns exactly six entries, the first three labelled
Captain and the next three Vice-Captain, and the three Captain entries
carry the three highest captain scores of the pool: the scored pool splits
(as a permutation) into the three captains and a rest whose scores do not
exceed any captain score. -/
theorem captain_picks_partition (pool : List (Player × ℚ)) (pc : Option Dict)
    (h6 : 6 ≤ pool.length) :
    (getCaptainPicks pool pc).length = 6 ∧
    ((getCaptainPicks pool pc).map (fun pk => pk.recommendation) =
      ["Captain", "Captain", "Captain", "Vice-Captain", "Vice-Captain", "Vice-Captain"]) ∧
    ∃ caps rest : List (Player × ℚ),
      (scoredPlayers pool pc).Perm (caps ++ rest) ∧
      caps.length = 3 ∧
      ((getCaptainPicks pool pc).take 3).map (fun pk => (pk.name, pk.captain_score)) =
        caps.map (fun x => (x.1.name, x.2)) ∧
      (∀ c ∈ caps, ∀ r ∈ rest, r.2 ≤ c.2) := by
  have hlen_scored : (scoredPlayers pool pc).length = pool.length :=
    List.length_map _ _
  set sorted := (scoredPlayers pool pc).insertionSort scoreGE with hsorted
  have hlen_sorted : sorted.length = pool.length := by
    rw [hsorted, (List.perm_insertionSort scoreGE _).length_eq, hlen_scored]
  have hpicks : getCaptainPicks pool pc = buildPicks 0 (sorted.take 6) := rfl
  have hlen_take : (sorted.take 6).length = 6 := by
    rw [List.length_take]
    omega
  refine ⟨?_, ?_, ?_⟩
  · rw [hpicks, buildPicks_length, hlen_take]
  · obtain ⟨a, b, c, d, e, f, h6eq⟩ := list_eq_six (sorted.take 6) hlen_take
    rw [hpicks, h6eq]
    exact buildPicks_map_label_of_six a b c d e f
  · refine ⟨sorted.take 3, sorted.drop 3, ?_, ?_, ?_, ?_⟩
    · rw [List.take_append_drop]
      exact (List.perm_insertionSort scoreGE _).symm
    · rw [List.length_take]
      omega
    · rw [hpicks]
      calc ((buildPicks 0 (sorted.take 6)).take 3).map
              (fun pk => (pk.name, pk.captain_score))
          = (((buildPicks 0 (sorted.take 6)).map
              (fun pk => (pk.name, pk.captain_score))).take 3) := by
            simp [List.map_take]
        _ = (((sorted.take 6).map (fun x => (x.1.name, x.2))).take 3) := by
            rw [buildPicks_map_name_score]
        _ = ((sorted.take 3).map (fun x => (x.1.name, x.2))) := by
            simp [List.map_take, List.take_take]
    · have hsort : sorted.Sorted scoreGE := List.sorted_insertionSort scoreGE _
      have hsplit := hsort
      rw [← List.take_append_drop 3 sorted] at hsplit
      have hpw := (List.pairwise_append.mp hsplit).2.2
      intro c hc r hr
      exact hpw c hc r hr

/-- Witness for C5 at a concrete six-player pool. -/
theorem captain_picks_partition_witness :
    6 ≤ captainPoolEx.length ∧
    ((getCaptainPicks captainPoolEx none).length = 6 ∧
      ((getCaptainPicks captainPoolEx none).map (fun pk => pk.recommendation) =
        ["Captain", "Captain", "Captain", "Vice-Captain", "Vice-Captain", "Vice-Captain"]) ∧
      ∃ caps rest : List (Player × ℚ),
        (scoredPlayers captainPoolEx none).Perm (caps ++ rest) ∧
        caps.length = 3 ∧
        ((getCaptainPicks captainPoolEx none).take 3).map
            (fun pk => (pk.name, pk.captain_score)) =
          caps.map (fun x => (x.1.name, x.2)) ∧
        (∀ c ∈ caps, ∀ r ∈ rest, r.2 ≤ c.2)) :=
  ⟨by decide, captain_picks_partition captainPoolEx none (by decide)⟩

/-! ### Claim C6 -/

/-- C6 counterexample: with every source down, the venue of the second
static live-match fallback entry matches the query but that entry has no
`pitch_conditions` key, so `get_pitch_conditions` returns an empty dict
instead of one with the three friendliness keys. -/
theorem pitch_conditions_counterexample :
    getPitchConditions allMatchesDownEx "Melbourne Cricket Ground" 5 5 5 = Json.obj [] ∧
    (Json.obj []).objKeys ≠ ["batting_friendly", "pace_friendly", "spin_friendly"] :=
  ⟨rfl, by decide⟩

/-- C6 amended: `get_pitch_conditions` returns the `pitch_conditions`
value of the first stored match at the venue when one exists (an empty
dict when that match lacks the key, as the live fallback entries do), and
otherwise synthesizes a dict with exactly the three friendliness keys,
each an integer in [4, 8] and hence in [0, 10]. -/
theorem pitch_conditions_amended (ms : List Dict) (venue : String) (r₁ r₂ r₃ : ℤ)
    (h₁ : 4 ≤ r₁ ∧ r₁ ≤ 8) (h₂ : 4 ≤ r₂ ∧ r₂ ≤ 8) (h₃ : 4 ≤ r₃ ∧ r₃ ≤ 8) :
    (∀ m tail, venueMatchList ms venue = m :: tail →
      getPitchConditions ms venue r₁ r₂ r₃ = pyGetD m "pitch_conditions" (.obj [])) ∧
    (venueMatchList ms venue = [] →
      (getPitchConditions ms venue r₁ r₂ r₃).objKeys =
        ["batting_friendly", "pace_friendly", "spin_friendly"] ∧
      getPitchConditions ms venue r₁ r₂ r₃ =
        .obj [("batting_friendly", .num (r₁ : ℚ)), ("pace_friendly", .num (r₂ : ℚ)),
              ("spin_friendly", .num (r₃ : ℚ))] ∧
      (0 ≤ r₁ ∧ r₁ ≤ 10) ∧ (0 ≤ r₂ ∧ r₂ ≤ 10) ∧ (0 ≤ r₃ ∧ r₃ ≤ 10)) := by
  constructor
  · intro m tail hm
    unfold getPitchConditions
    rw [hm]
  · intro hm
    unfold getPitchConditions
    rw [hm]
    refine ⟨rfl, rfl, ?_, ?_, ?_⟩ <;> omega

/-- Witness for C6 at an empty match store: the synthesized conditions. -/
theorem pitch_conditions_amended_witness :
    ((4 : ℤ) ≤ 4 ∧ (4 : ℤ) ≤ 8) ∧ ((4 : ℤ) ≤ 5 ∧ (5 : ℤ) ≤ 8) ∧
    ((4 : ℤ) ≤ 8 ∧ (8 : ℤ) ≤ 8) ∧
    ((∀ m tail, venueMatchList [] "Eden Gardens" = m :: tail →
      getPitchConditions [] "Eden Gardens" 4 5 8 = pyGetD m "pitch_conditions" (.obj [])) ∧
    (venueMatchList [] "Eden Gardens" = [] →
      (getPitchConditions [] "Eden Gardens" 4 5 8).objKeys =
        ["batting_friendly", "pace_friendly", "spin_friendly"] ∧
      getPitchConditions [] "Eden Gardens" 4 5 8 =
        .obj [("batting_friendly", .num ((4 : ℤ) : ℚ)), ("pace_friendly", .num ((5 : ℤ) : ℚ)),
              ("spin_friendly", .num ((8 : ℤ) : ℚ))] ∧
      (0 ≤ (4 : ℤ) ∧ (4 : ℤ) ≤ 10) ∧ (0 ≤ (5 : ℤ) ∧ (5 : ℤ) ≤ 10) ∧
      (0 ≤ (8 : ℤ) ∧ (8 : ℤ) ≤ 10))) :=
  ⟨⟨by decide, by decide⟩, ⟨by decide, by decide⟩, ⟨by decide, by decide⟩,
    pitch_conditions_amended [] "Eden Gardens" 4 5 8
      ⟨by decide, by decide⟩ ⟨by decide, by decide⟩ ⟨by decide, by decide⟩⟩

/-! ### Claim C7 -/

/-- The differential score when the teams string splits in two. -/
theorem calcDifferentialScore_split (p : Player) (pc : Option Dict) (m : MatchRec)
    (mf j : ℚ) (hsplit : (pySplitOn m.teams " vs ").length = 2) :
    calcDifferentialScore p pc m mf j =
      pyRound1 (diffScoreDet p (pitchFlag pc "bowler_friendly")
        (pitchFlag pc "batsman_friendly") + (mf + j)) := by
  simp [calcDifferentialScore, diffScoreCore, hsplit, add_assoc]

/-- The differential score when the teams string does not split in two. -/
theorem calcDifferentialScore_nosplit (p : Player) (pc : Option Dict) (m : MatchRec)
    (mf j : ℚ) (hsplit : (pySplitOn m.teams " vs ").length ≠ 2) :
    calcDifferentialScore p pc m mf j =
      pyRound1 (diffScoreDet p (pitchFlag pc "bowler_friendly")
        (pitchFlag pc "batsman_friendly") + j) := by
  simp [calcDifferentialScore, diffScoreCore, hsplit]

/-- C7 counterexample: with in-range draws (matchup 1.5, jitter 0.2) on a
two-team match, the score exceeds the deterministic sum by 1.7, not by at
most 0.2 as the claim states. -/
theorem differential_jitter_counterexample :
    (-(1/2) : ℚ) ≤ 3/2 ∧ (3/2 : ℚ) ≤ 3/2 ∧ (-(1/5) : ℚ) ≤ 1/5 ∧ (1/5 : ℚ) ≤ 1/5 ∧
    calcDifferentialScore plainPlayer none matchEx (3/2) (1/5) -
      calcDifferentialScore plainPlayer none matchEx 0 0 = 17/10 ∧
    ¬ |calcDifferentialScore plainPlayer none matchEx (3/2) (1/5) -
        calcDifferentialScore plainPlayer none matchEx 0 0| ≤ 1/5 := by
  have hr1 : containsSubStr (lowerStr "") "all-rounder" = false := by decide
  have hsplit : (pySplitOn "India vs Australia" " vs ").length = 2 := by decide
  have hdet : diffScoreDet plainPlayer false false = 5 := by
    simp only [diffScoreDet, plainPlayer, hr1, formAvg]
    norm_num
  have h₁ : calcDifferentialScore plainPlayer none matchEx (3/2) (1/5) = 67/10 := by
    rw [calcDifferentialScore_split plainPlayer none matchEx (3/2) (1/5) hsplit]
    have hflag : pitchFlag none "bowler_friendly" = false := rfl
    have hflag' : pitchFlag none "batsman_friendly" = false := rfl
    rw [hflag, hflag', hdet]
    norm_num [pyRound1, round_eq]
  have h₂ : calcDifferentialScore plainPlayer none matchEx 0 0 = 5 := by
    rw [calcDifferentialScore_split plainPlayer none matchEx 0 0 hsplit]
    have hflag : pitchFlag none "bowler_friendly" = false := rfl
    have hflag' : pitchFlag none "batsman_friendly" = false := rfl
    rw [hflag, hflag', hdet]
    norm_num [pyRound1, round_eq]
  rw [h₁, h₂]
  refine ⟨by norm_num, by norm_num, by norm_num, by norm_num, by norm_num, ?_⟩
  rw [show (67/10 : ℚ) - 5 = 17/10 by norm_num]
  rw [abs_of_pos (show (0 : ℚ) < 17/10 by norm_num)]
  norm_num

/-- C7 amended: the differential score also carries a uniform random
matchup factor in [-0.5, 1.5] whenever the match teams string splits into
exactly two names; the rounded score then deviates from the deterministic
sum by at most 1.7 (and at least -0.7), and only when the teams string
does not split in two is the deviation bounded by the claimed 0.2. -/
theorem differential_score_random_bounds (p : Player) (pc : Option Dict) (m : MatchRec)
    (mf j : ℚ) (hmf₁ : -(1/2) ≤ mf) (hmf₂ : mf ≤ 3/2)
    (hj₁ : -(1/5) ≤ j) (hj₂ : j ≤ 1/5) :
    ((pySplitOn m.teams " vs ").length = 2 →
      -(7/10) ≤ calcDifferentialScore p pc m mf j - calcDifferentialScore p pc m 0 0 ∧
      calcDifferentialScore p pc m mf j - calcDifferentialScore p pc m 0 0 ≤ 17/10) ∧
    ((pySplitOn m.teams " vs ").length ≠ 2 →
      |calcDifferentialScore p pc m mf j - calcDifferentialScore p pc m 0 0| ≤ 1/5) := by
  constructor
  · intro hsplit
    rw [calcDifferentialScore_split p pc m mf j hsplit,
      calcDifferentialScore_split p pc m 0 0 hsplit]
    have hb := pyRound1_shift_bounds
      (diffScoreDet p (pitchFlag pc "bowler_friendly") (pitchFlag pc "batsman_friendly"))
      (mf + j) (-7) 17 (by push_cast; linarith) (by push_cast; linarith)
    obtain ⟨hb₁, hb₂⟩ := hb
    push_cast at hb₁ hb₂
    constructor <;> [skip; skip] <;> simp only [add_zero] at * <;> linarith
  · intro hsplit
    rw [calcDifferentialScore_nosplit p pc m mf j hsplit,
      calcDifferentialScore_nosplit p pc m 0 0 hsplit]
    have hb := pyRound1_shift_bounds
      (diffScoreDet p (pitchFlag pc "bowler_friendly") (pitchFlag pc "batsman_friendly"))
      j (-2) 2 (by push_cast; linarith) (by push_cast; linarith)
    obtain ⟨hb₁, hb₂⟩ := hb
    push_cast at hb₁ hb₂
    rw [abs_le]
    constructor <;> simp only [add_zero] at * <;> linarith

/-- Witness for C7 at concrete in-range draws on a two-team match. -/
theorem differential_score_random_bounds_witness :
    ((-(1/2) : ℚ) ≤ 1 ∧ (1 : ℚ) ≤ 3/2 ∧ (-(1/5) : ℚ) ≤ 1/10 ∧ (1/10 : ℚ) ≤ 1/5) ∧
    (((pySplitOn matchEx.teams " vs ").length = 2 →
      -(7/10) ≤ calcDifferentialScore plainPlayer none matchEx 1 (1/10) -
          calcDifferentialScore plainPlayer none matchEx 0 0 ∧
      calcDifferentialScore plainPlayer none matchEx 1 (1/10) -
          calcDifferentialScore plainPlayer none matchEx 0 0 ≤ 17/10) ∧
    ((pySplitOn matchEx.teams " vs ").length ≠ 2 →
      |calcDifferentialScore plainPlayer none matchEx 1 (1/10) -
          calcDifferentialScore plainPlayer none matchEx 0 0| ≤ 1/5)) :=
  ⟨⟨by norm_num, by norm_num, by norm_num, by norm_num⟩,
    differential_score_random_bounds plainPlayer none matchEx 1 (1/10)
      (by norm_num) (by norm_num) (by norm_num) (by norm_num)⟩

/-! ### Claim C8 -/

/-- C8 counterexample: within the cache window with the real-time API
configured, the second `get_player_stats` call still makes two calls to
the real-time source client (player search and stats), contradicting the
claimed absence of network requests. -/
theorem cache_hit_calls_source_counterexample :
    (getPlayerStatsCacheHit realtimeEnvEx viratKohliRecord).2 = 2 ∧ (2 : Nat) ≠ 0 :=
  ⟨rfl, by decide⟩

/-- C8 amended: when the real-time API is not configured, the valid-cache
path returns the cached record unchanged and makes no source-client
call. -/
theorem cache_hit_pure_without_api (env : RealtimeEnv) (cached : Dict)
    (h : env.cricketApiAvailable = false) :
    getPlayerStatsCacheHit env cached = (cached, 0) := by
  simp [getPlayerStatsCacheHit, h]

/-- Witness for C8 with the API key absent. -/
theorem cache_hit_pure_without_api_witness :
    realtimeEnvOffEx.cricketApiAvailable = false ∧
    getPlayerStatsCacheHit realtimeEnvOffEx viratKohliRecord = (viratKohliRecord, 0) :=
  ⟨rfl, cache_hit_pure_without_api realtimeEnvOffEx viratKohliRecord rfl⟩

/-! ### Claim C9 -/

/-- The cache-save stamping always yields a non-empty dict. -/
theorem stampRecord_ne_nil (d : Dict) (n t o : String) : stampRecord d n t o ≠ [] := by
  simp only [stampRecord]
  split
  · exact pySet_ne_nil _ _ _
  · exact pySet_ne_nil _ _ _

/-- C9: the fresh-fetch path always returns a (non-empty) dictionary; when
both sources fail it returns the stamped fallback record, and when the
fallback table has no match for the name that record is the default one
with team and role "Unknown", zero statistics and an empty recent form. -/
theorem get_player_stats_total_fallback (src : Sources) (name ts orig : String)
    (hname : name ≠ "") :
    getPlayerStatsFresh src name ts orig ≠ [] ∧
    (fetchPlayerData src = none →
      getPlayerStatsFresh src name ts orig =
        stampRecord (fallbackPlayerStats name) name ts orig) ∧
    (fallbackTableMiss name →
      fallbackPlayerStats name = defaultFallbackRecord name ∧
      pyGet (defaultFallbackRecord name) "team" = some (.str "Unknown") ∧
      pyGet (defaultFallbackRecord name) "role" = some (.str "Unknown") ∧
      pyGet (defaultFallbackRecord name) "batting_avg" = some (.num 0) ∧
      pyGet (defaultFallbackRecord name) "strike_rate" = some (.num 0) ∧
      pyGet (defaultFallbackRecord name) "recent_form" = some (.arr []) ∧
      pyGet (defaultFallbackRecord name) "fantasy_points_avg" = some (.num 0) ∧
      pyGet (defaultFallbackRecord name) "ownership" = some (.num 0) ∧
      pyGet (defaultFallbackRecord name) "price" = some (.num 0) ∧
      pyGet (defaultFallbackRecord name) "matches_played" = some (.num 0)) := by
  refine ⟨?_, ?_, ?_⟩
  · simp only [getPlayerStatsFresh]
    exact stampRecord_ne_nil _ _ _ _
  · intro h
    simp only [getPlayerStatsFresh, h]
  · rintro ⟨h1, h2, h3, h4⟩
    refine ⟨?_, rfl, rfl, rfl, rfl, rfl, rfl, rfl, rfl, rfl⟩
    simp only [fallbackPlayerStats, h1, h2, h3, h4]

/-- Witness for C9 at a name no fallback stage matches, with both sources
failed. -/
theorem get_player_stats_total_fallback_witness :
    ("Zzzz Qqqq" : String) ≠ "" ∧
    (getPlayerStatsFresh missSources "Zzzz Qqqq" "2024-01-01T00:00:00" "Zzzz Qqqq" ≠ [] ∧
    (fetchPlayerData missSources = none →
      getPlayerStatsFresh missSources "Zzzz Qqqq" "2024-01-01T00:00:00" "Zzzz Qqqq" =
        stampRecord (fallbackPlayerStats "Zzzz Qqqq") "Zzzz Qqqq"
          "2024-01-01T00:00:00" "Zzzz Qqqq") ∧
    (fallbackTableMiss "Zzzz Qqqq" →
      fallbackPlayerStats "Zzzz Qqqq" = defaultFallbackRecord "Zzzz Qqqq" ∧
      pyGet (defaultFallbackRecord "Zzzz Qqqq") "team" = some (.str "Unknown") ∧
      pyGet (defaultFallbackRecord "Zzzz Qqqq") "role" = some (.str "Unknown") ∧
      pyGet (defaultFallbackRecord "Zzzz Qqqq") "batting_avg" = some (.num 0) ∧
      pyGet (defaultFallbackRecord "Zzzz Qqqq") "strike_rate" = some (.num 0) ∧
      pyGet (defaultFallbackRecord "Zzzz Qqqq") "recent_form" = some (.arr []) ∧
      pyGet (defaultFallbackRecord "Zzzz Qqqq") "fantasy_points_avg" = some (.num 0) ∧
      pyGet (defaultFallbackRecord "Zzzz Qqqq") "ownership" = some (.num 0) ∧
      pyGet (defaultFallbackRecord "Zzzz Qqqq") "price" = some (.num 0) ∧
      pyGet (defaultFallbackRecord "Zzzz Qqqq") "matches_played" = some (.num 0))) :=
  ⟨by decide,
    get_player_stats_total_fallback missSources "Zzzz Qqqq" "2024-01-01T00:00:00"
      "Zzzz Qqqq" (by decide)⟩

/-! ### Claim C10 -/

/-- C10: a pitch-conditions dict with exactly the adapter's three keys has
no `bowler_friendly` or `batsman_friendly` key, so all three scoring
functions coincide with their `pitch_conditions = None` runs under the
same random draws. -/
theorem scores_ignore_adapter_pitch (p : Player) (m : MatchRec) (mf j : ℚ) (pc : Dict)
    (hkeys : pc.map Prod.fst = ["batting_friendly", "pace_friendly", "spin_friendly"]) :
    calcDifferentialScore p (some pc) m mf j = calcDifferentialScore p none m mf j ∧
    calcCaptainScore p (some pc) j = calcCaptainScore p none j ∧
    calcPlayerScore p (some pc) j = calcPlayerScore p none j := by
  have hbow : pitchFlag (some pc) "bowler_friendly" = false := by
    have hget : pyGet pc "bowler_friendly" = none := by
      apply pyGet_eq_none_of_key_not_mem
      rw [hkeys]
      decide
    simp [pitchFlag, pyGetD, hget, Json.truthy]
  have hbat : pitchFlag (some pc) "batsman_friendly" = false := by
    have hget : pyGet pc "batsman_friendly" = none := by
      apply pyGet_eq_none_of_key_not_mem
      rw [hkeys]
      decide
    simp [pitchFlag, pyGetD, hget, Json.truthy]
  have hn₁ : pitchFlag none "bowler_friendly" = false := rfl
  have hn₂ : pitchFlag none "batsman_friendly" = false := rfl
  exact ⟨by rw [calcDifferentialScore, calcDifferentialScore, hbow, hbat, hn₁, hn₂],
    by rw [calcCaptainScore, calcCaptainScore, hbow, hbat, hn₁, hn₂],
    by rw [calcPlayerScore, calcPlayerScore, hbow, hbat, hn₁, hn₂]⟩

/-- Witness for C10 at the adapter's literal pitch dict. -/
theorem scores_ignore_adapter_pitch_witness :
    adapterPitchEx.map Prod.fst =
      ["batting_friendly", "pace_friendly", "spin_friendly"] ∧
    (calcDifferentialScore plainPlayer (some adapterPitchEx) matchEx (1/2) (1/10) =
        calcDifferentialScore plainPlayer none matchEx (1/2) (1/10) ∧
      calcCaptainScore plainPlayer (some adapterPitchEx) (1/10) =
        calcCaptainScore plainPlayer none (1/10) ∧
      calcPlayerScore plainPlayer (some adapterPitchEx) (1/10) =
        calcPlayerScore plainPlayer none (1/10)) :=
  ⟨by decide,
    scores_ignore_adapter_pitch plainPlayer matchEx (1/2) (1/10) adapterPitchEx (by decide)⟩

end CricketCoach
